import Mathlib

/-!
Verification of the routing core of the Ollama MCP server
(src/mcp-servers/ollama-mcp/index.js): the complexity classifier,
the chat routing logic, the liveness probe, the list-models handler
and the tool-level error envelope, embedded shallowly in Lean.
-/

/-- Character class matched by a whitespace escape in a JS regular
expression, as used by the split pattern in estimateComplexity
(index.js line 98). -/
def jsIsWhitespace (c : Char) : Bool :=
  c == ' ' || c == '\t' || c == '\n' || c == '\r' ||
  c.val == 11 || c.val == 12 || c.val == 0xa0 || c.val == 0x1680 ||
  (0x2000 ≤ c.val && c.val ≤ 0x200a) ||
  c.val == 0x2028 || c.val == 0x2029 || c.val == 0x202f || c.val == 0x205f ||
  c.val == 0x3000 || c.val == 0xfeff

/-- JS split of a character sequence on maximal runs of whitespace,
following the semantics of prompt.split on a whitespace-run regular
expression (index.js line 98): an empty leading or trailing piece
appears when the text starts or ends with whitespace, and the empty
text yields a single empty piece. -/
def jsSplitWs : List Char → List (List Char)
  | [] => [[]]
  | c :: rest =>
    if jsIsWhitespace c then
      match rest with
      | c2 :: _ =>
        if jsIsWhitespace c2 then jsSplitWs rest
        else [] :: jsSplitWs rest
      | [] => [] :: jsSplitWs rest
    else
      match jsSplitWs rest with
      | p :: ps => (c :: p) :: ps
      | [] => [[c]]

/-- wordCount of estimateComplexity (index.js line 98): the length of
the JS whitespace split of the prompt. -/
def wordCount (prompt : String) : Nat :=
  (jsSplitWs prompt.toList).length

/-- Whether the first sequence starts with the second-to-first given
pattern sequence; helper for literal substring search. -/
def listStartsWith : List Char → List Char → Bool
  | [], _ => true
  | _ :: _, [] => false
  | a :: ps, b :: cs => a == b && listStartsWith ps cs

/-- Whether the pattern sequence occurs contiguously anywhere inside
the text sequence. -/
def listContainsSeq (p s : List Char) : Bool :=
  match s with
  | [] => listStartsWith p []
  | _ :: rest => listStartsWith p s || listContainsSeq p rest

/-- A JS alternation regex of lowercase ASCII literal words tested
with the case-insensitivity flag: fold ASCII letters of the text to
lowercase and look for any alternative as a substring (index.js
lines 99 to 101). -/
def regexTestI (alternatives : List String) (text : String) : Bool :=
  alternatives.any fun a => listContainsSeq a.toList (text.toList.map Char.toLower)

/-- hasCodeRequest (index.js line 99). -/
def hasCodeRequest (prompt : String) : Bool :=
  regexTestI ["code", "implement", "function", "class", "debug", "fix"] prompt

/-- hasAnalysisRequest (index.js line 100). -/
def hasAnalysisRequest (prompt : String) : Bool :=
  regexTestI ["analyze", "explain", "compare", "evaluate"] prompt

/-- hasSimpleRequest (index.js line 101). -/
def hasSimpleRequest (prompt : String) : Bool :=
  regexTestI ["hello", "hi", "thanks", "yes", "no", "ok"] prompt

/-- The three complexity tiers returned by estimateComplexity. -/
inductive ComplexityTier where
  | simple
  | medium
  | complex
deriving DecidableEq

/-- estimateComplexity (index.js lines 97 to 106): simple when the
greeting pattern matches and the word count is below 20; otherwise
complex when the code pattern or the analysis pattern matches or the
word count exceeds 100; otherwise medium. -/
def estimateComplexity (prompt : String) : ComplexityTier :=
  if hasSimpleRequest prompt = true ∧ wordCount prompt < 20 then
    ComplexityTier.simple
  else if hasCodeRequest prompt = true ∨ hasAnalysisRequest prompt = true ∨
      wordCount prompt > 100 then
    ComplexityTier.complex
  else
    ComplexityTier.medium

/-- The two configured backend clients (index.js lines 91 to 92). -/
inductive Client where
  | localClient
  | remoteClient
deriving DecidableEq

/-- Default model of the local backend: the value of the LOCAL_MODEL
environment default (index.js line 18). -/
def DEFAULT_LOCAL_MODEL : String := "qwen2.5:1.5b"

/-- Default model of the remote backend: the value of the REMOTE_MODEL
environment default (index.js line 19). -/
def DEFAULT_REMOTE_MODEL : String := "qwen2.5:7b"

/-- Outcome of the routing phase of the chat tool handler: the chosen
client, the model identifier to use, and how many availability probes
the decision itself performed. -/
structure RouteResult where
  client : Client
  modelToUse : String
  probes : Nat
deriving DecidableEq

/-- Routing phase of the chat tool handler (index.js lines 206 to 230).
localAvailable is the boolean the local liveness check returns when it
is awaited at decision time; probes counts those awaited checks. The
source binds the classifier result once; the embedding calls the pure
classifier in place. The source folds the simple-but-unavailable case
and the non-simple case into one else arm whose model is the remote
default exactly for the complex tier; the embedding spells the two
cases out with the same bodies. -/
def routeChat (model : Option String) (prefer : String) (message : String)
    (localAvailable : Bool) : RouteResult :=
  match model with
  | some m =>
    { client := if localAvailable then Client.localClient else Client.remoteClient,
      modelToUse := m, probes := 1 }
  | none =>
    if prefer = "fast" then
      { client := Client.localClient, modelToUse := DEFAULT_LOCAL_MODEL, probes := 0 }
    else if prefer = "smart" then
      { client := Client.remoteClient, modelToUse := DEFAULT_REMOTE_MODEL, probes := 0 }
    else
      if estimateComplexity message = ComplexityTier.simple then
        if localAvailable then
          { client := Client.localClient, modelToUse := DEFAULT_LOCAL_MODEL, probes := 1 }
        else
          { client := Client.remoteClient, modelToUse := DEFAULT_LOCAL_MODEL, probes := 1 }
      else
        { client := Client.remoteClient,
          modelToUse :=
            if estimateComplexity message = ComplexityTier.complex then
              DEFAULT_REMOTE_MODEL
            else
              DEFAULT_LOCAL_MODEL,
          probes := 0 }

/-- Response of a tool call as seen by the host: its text content and
the isError marker. A success response of the source carries no
isError field, which reads as false; the catch arm sets it to true
(index.js lines 242 to 253 and 319 to 329). -/
structure ToolResponse where
  text : String
  isError : Bool
deriving DecidableEq

/-- Message sequence built by the chat handler (index.js lines 232 to
237): the optional system message prepended to the user message, each
as a role and content pair. -/
def buildMessages (system : Option String) (message : String) :
    List (String × String) :=
  (match system with
   | some s => [("system", s)]
   | none => []) ++ [("user", message)]

/-- The chat tool handler together with the surrounding try and catch
of the tool dispatcher (index.js lines 202 to 254 and 319 to 329).
backendChat stands for the chat call of the chosen client: ok with the
response text, or error with the message of the thrown failure. The
catch arm converts any thrown failure into the uniform envelope whose
text prepends the word Error to the message. -/
def handleChat (message : String) (system : Option String) (model : Option String)
    (prefer : String) (localAvailable : Bool)
    (backendChat : Client → String → List (String × String) → Except String String) :
    ToolResponse :=
  let r := routeChat model prefer message localAvailable
  match backendChat r.client r.modelToUse (buildMessages system message) with
  | Except.ok t => { text := t, isError := false }
  | Except.error e => { text := "Error: " ++ e, isError := true }

/-- Outcome of the fetch inside isAvailable (index.js lines 80 to 82):
the request resolved with a response whose ok flag is given, or it
threw a network failure, or the 5 second abort signal fired. -/
inductive FetchOutcome where
  | success (ok : Bool)
  | networkError (message : String)
  | timeout
deriving DecidableEq

/-- The fixed timeout, in milliseconds, bounding the liveness probe
(index.js line 81). -/
def PROBE_TIMEOUT_MS : Nat := 5000

/-- OllamaClient.isAvailable (index.js lines 78 to 87): the ok flag of
a resolved response is returned; the catch arm turns every thrown
failure, the timeout abort included, into false. -/
def isAvailable (outcome : FetchOutcome) : Bool :=
  match outcome with
  | FetchOutcome.success ok => ok
  | FetchOutcome.networkError _ => false
  | FetchOutcome.timeout => false

/-- Probe trace of a backend client: the wall-clock times, in
milliseconds, at which liveness probes were issued to it. -/
structure AvailState where
  probeTimes : List Nat
deriving DecidableEq

/-- One isAvailable invocation at wall-clock time now against a client
whose probe trace is s (index.js lines 78 to 87): the method body
performs the fetch unconditionally — it consults no stored record and
no timestamp — so every call appends one probe to the trace, and the
returned boolean is the probe result alone. -/
def isAvailableCall (now : Nat) (outcome : FetchOutcome) (s : AvailState) :
    Bool × AvailState :=
  (isAvailable outcome, { probeTimes := s.probeTimes ++ [now] })

/-- One entry of a backend slot in the list-models response: a model
descriptor, or the error marker the catch arm stores (index.js lines
269 to 282). -/
inductive ModelsEntry where
  | model (descriptor : String)
  | err (message : String)
deriving DecidableEq

/-- The two slots of the list-models response (index.js line 270). -/
structure ListModelsResult where
  localModels : List ModelsEntry
  remoteModels : List ModelsEntry
deriving DecidableEq

/-- The list-models tool handler (index.js lines 269 to 292): each
backend is queried under its own try and catch; a slot holds the model
list on success and the one-element error marker on failure, each
independent of the other call. -/
def list_models (localCall remoteCall : Except String (List String)) :
    ListModelsResult :=
  { localModels :=
      match localCall with
      | Except.ok ms => ms.map ModelsEntry.model
      | Except.error e => [ModelsEntry.err e],
    remoteModels :=
      match remoteCall with
      | Except.ok ms => ms.map ModelsEntry.model
      | Except.error e => [ModelsEntry.err e] }

/-- A text of 101 one-letter words, matching none of the classifier
patterns; its word count exceeds 100. -/
def longPlainText : String :=
  "a a a a a a a a a a a a a a a a a a a a a a a a a a a a a a a a a a a a a a a a a a a a a a a a a a a a a a a a a a a a a a a a a a a a a a a a a a a a a a a a a a a a a a a a a a a a a a a a a a a a a"

/-- Claim C1: the source has no availability cache — two isAvailable
calls five seconds apart, well inside the recommended ten second
freshness window, each issue a liveness probe, so the probe trace
holds two entries where the claim allows at most one. -/
theorem isAvailable_probes_every_call :
    ((isAvailableCall 5000 (FetchOutcome.success true)
        (isAvailableCall 0 (FetchOutcome.success true) { probeTimes := [] }).2).2.probeTimes
      = [0, 5000]) ∧ 5000 - 0 < 10000 :=
  ⟨rfl, by decide⟩

/-- Claim C2: with preference auto, no explicit model, and a message
the classifier puts in the simple tier, the handler routes to the
local client with the local default model exactly when the local
availability check returns true at call time, and to the remote client
otherwise. -/
theorem chat_auto_simple_routing (message : String) (localAvailable : Bool)
    (h : estimateComplexity message = ComplexityTier.simple) :
    routeChat none "auto" message localAvailable =
      if localAvailable then
        { client := Client.localClient, modelToUse := DEFAULT_LOCAL_MODEL, probes := 1 }
      else
        { client := Client.remoteClient, modelToUse := DEFAULT_LOCAL_MODEL, probes := 1 } := by
  cases localAvailable <;> simp [routeChat, h]

/-- Witness for chat_auto_simple_routing: the message hi is
simple-tier, and with the local backend available the route is the
local client with the local default model. -/
theorem chat_auto_simple_routing_witness :
    routeChat none "auto" "hi" true =
      if true then
        { client := Client.localClient, modelToUse := DEFAULT_LOCAL_MODEL, probes := 1 }
      else
        { client := Client.remoteClient, modelToUse := DEFAULT_LOCAL_MODEL, probes := 1 } :=
  chat_auto_simple_routing "hi" true (by decide)

/-- Claim C3: with preference auto and no explicit model, whenever the
route is not the local one — the tier is not simple, or the local
backend is unavailable — the chosen client is the remote one, and the
model is the remote default exactly for the complex tier and the local
default model name for every other tier. -/
theorem chat_auto_fallback (message : String) (localAvailable : Bool)
    (h : estimateComplexity message ≠ ComplexityTier.simple ∨ localAvailable = false) :
    (routeChat none "auto" message localAvailable).client = Client.remoteClient ∧
    (routeChat none "auto" message localAvailable).modelToUse =
      (if estimateComplexity message = ComplexityTier.complex then
        DEFAULT_REMOTE_MODEL
      else
        DEFAULT_LOCAL_MODEL) := by
  rcases h with h | h
  · cases localAvailable <;> simp [routeChat, h]
  · subst h
    by_cases hs : estimateComplexity message = ComplexityTier.simple <;>
      simp [routeChat, hs]

/-- Witness for chat_auto_fallback: the simple-tier message hi with
the local backend down routes to the remote client under the local
default model name. -/
theorem chat_auto_fallback_witness :
    (routeChat none "auto" "hi" false).client = Client.remoteClient ∧
    (routeChat none "auto" "hi" false).modelToUse =
      (if estimateComplexity "hi" = ComplexityTier.complex then
        DEFAULT_REMOTE_MODEL
      else
        DEFAULT_LOCAL_MODEL) :=
  chat_auto_fallback "hi" false (Or.inr rfl)

/-- Claim C4: the classifier is total over the three tiers and obeys
the stated tie-break: a greeting match under 20 words is simple; over
100 words with no greeting match is complex; with the simple condition
failed and every complex condition failed the result is medium; and a
text matching both the greeting pattern and a code or analysis pattern
at 20 or more words falls through to the complex check. -/
theorem estimateComplexity_spec (s : String) :
    (estimateComplexity s = ComplexityTier.simple ∨
      estimateComplexity s = ComplexityTier.medium ∨
      estimateComplexity s = ComplexityTier.complex) ∧
    (hasSimpleRequest s = true → wordCount s < 20 →
      estimateComplexity s = ComplexityTier.simple) ∧
    (hasSimpleRequest s = false → wordCount s > 100 →
      estimateComplexity s = ComplexityTier.complex) ∧
    (¬(hasSimpleRequest s = true ∧ wordCount s < 20) →
      hasCodeRequest s = false → hasAnalysisRequest s = false →
      ¬(wordCount s > 100) → estimateComplexity s = ComplexityTier.medium) ∧
    (hasSimpleRequest s = true →
      (hasCodeRequest s = true ∨ hasAnalysisRequest s = true) →
      ¬(wordCount s < 20) → estimateComplexity s = ComplexityTier.complex) := by
  refine ⟨?_, ?_, ?_, ?_, ?_⟩
  · unfold estimateComplexity
    split
    · exact Or.inl rfl
    · split
      · exact Or.inr (Or.inr rfl)
      · exact Or.inr (Or.inl rfl)
  · intro h1 h2
    unfold estimateComplexity
    rw [if_pos ⟨h1, h2⟩]
  · intro h1 h2
    unfold estimateComplexity
    rw [if_neg (by simp [h1]), if_pos (Or.inr (Or.inr h2))]
  · intro hns hc ha hw
    unfold estimateComplexity
    rw [if_neg hns, if_neg (by simp [hc, ha, hw])]
  · intro h1 hor hw
    unfold estimateComplexity
    rw [if_neg (fun hand => hw hand.2)]
    rcases hor with hc | ha
    · rw [if_pos (Or.inl hc)]
    · rw [if_pos (Or.inr (Or.inl ha))]

/-- Witness for estimateComplexity_spec: one concrete text per
implication — hello is simple; 101 plain words are complex; a
two-word text matching nothing is medium; and a 20-word text matching
both the greeting and the code pattern is complex. -/
theorem estimateComplexity_spec_witness :
    estimateComplexity "hello" = ComplexityTier.simple ∧
    estimateComplexity longPlainText = ComplexityTier.complex ∧
    estimateComplexity "weather today" = ComplexityTier.medium ∧
    estimateComplexity "hi fix w w w w w w w w w w w w w w w w w w" =
      ComplexityTier.complex :=
  ⟨(estimateComplexity_spec "hello").2.1 (by decide) (by decide),
   (estimateComplexity_spec longPlainText).2.2.1 (by decide) (by decide),
   (estimateComplexity_spec "weather today").2.2.2.1 (by decide) (by decide)
     (by decide) (by decide),
   (estimateComplexity_spec "hi fix w w w w w w w w w w w w w w w w w w").2.2.2.2
     (by decide) (by decide) (by decide)⟩

/-- Claim C5: the chat handler never lets a failure escape the tool
boundary: whenever the backend call for the routed decision throws,
the handler returns the uniform error envelope carrying the message,
marked as an error. -/
theorem chat_error_envelope (message : String) (system model : Option String)
    (prefer : String) (localAvailable : Bool)
    (backendChat : Client → String → List (String × String) → Except String String)
    (e : String)
    (h : backendChat (routeChat model prefer message localAvailable).client
          (routeChat model prefer message localAvailable).modelToUse
          (buildMessages system message) = Except.error e) :
    handleChat message system model prefer localAvailable backendChat =
      { text := "Error: " ++ e, isError := true } := by
  simp only [handleChat]
  rw [h]

/-- Witness for chat_error_envelope: a backend whose chat call always
throws yields the error envelope, not an unhandled failure. -/
theorem chat_error_envelope_witness :
    handleChat "hi" none none "auto" false
        (fun _ _ _ => Except.error "fetch failed") =
      { text := "Error: " ++ "fetch failed", isError := true } :=
  chat_error_envelope "hi" none none "auto" false
    (fun _ _ _ => Except.error "fetch failed") "fetch failed" rfl

/-- Claim C6: preference fast with no explicit model always routes to
the local client with the local default model and performs no
availability probe, whatever the availability of the local backend
is. -/
theorem chat_fast_unconditional (message : String) (localAvailable : Bool) :
    routeChat none "fast" message localAvailable =
      { client := Client.localClient, modelToUse := DEFAULT_LOCAL_MODEL, probes := 0 } :=
  rfl

/-- Claim C7: the liveness probe is total: its timeout is the fixed
5000 milliseconds, and every outcome that is not a resolved response —
a thrown network failure or the timeout abort — yields the value false
rather than a raised error. -/
theorem isAvailable_never_throws (o : FetchOutcome)
    (h : (∃ m, o = FetchOutcome.networkError m) ∨ o = FetchOutcome.timeout) :
    isAvailable o = false ∧ PROBE_TIMEOUT_MS = 5000 := by
  rcases h with ⟨m, rfl⟩ | rfl <;> exact ⟨rfl, rfl⟩

/-- Witness for isAvailable_never_throws: the timeout outcome resolves
to false. -/
theorem isAvailable_never_throws_witness :
    isAvailable FetchOutcome.timeout = false ∧ PROBE_TIMEOUT_MS = 5000 :=
  isAvailable_never_throws FetchOutcome.timeout (Or.inr rfl)

/-- Claim C8: the list-models handler queries the two backends
independently and always returns partial results: when exactly one
call fails, the failed slot is the one-element error marker and the
other slot is its model list, in either direction. -/
theorem list_models_independent_slots (e : String) (ms : List String) :
    (list_models (Except.error e) (Except.ok ms) =
      { localModels := [ModelsEntry.err e],
        remoteModels := ms.map ModelsEntry.model }) ∧
    (list_models (Except.ok ms) (Except.error e) =
      { localModels := ms.map ModelsEntry.model,
        remoteModels := [ModelsEntry.err e] }) :=
  ⟨rfl, rfl⟩

/-- Claim C9: the classifier patterns match substrings anywhere: the
text fix this bug matches the code pattern, yet the greeting
alternative hi also matches inside the word this, the text has three
words, and the simple check runs first, so the classifier returns
simple. -/
theorem classifier_substring_confound :
    hasCodeRequest "fix this bug" = true ∧
    hasSimpleRequest "fix this bug" = true ∧
    wordCount "fix this bug" = 3 ∧
    estimateComplexity "fix this bug" = ComplexityTier.simple := by
  decide

/-- Claim C10: a prefer value that is neither fast nor smart is not
rejected: with no explicit model the handler falls through to the auto
branch, so routing agrees with preference auto on every message and
availability. -/
theorem chat_unknown_prefer_fallthrough (prefer message : String)
    (localAvailable : Bool) (h1 : prefer ≠ "fast") (h2 : prefer ≠ "smart") :
    routeChat none prefer message localAvailable =
      routeChat none "auto" message localAvailable := by
  simp only [routeChat]
  rw [if_neg h1, if_neg h2, if_neg (by decide : ¬("auto" : String) = "fast"),
    if_neg (by decide : ¬("auto" : String) = "smart")]

/-- Witness for chat_unknown_prefer_fallthrough: the out-of-set value
turbo routes exactly as auto does. -/
theorem chat_unknown_prefer_fallthrough_witness :
    routeChat none "turbo" "hi" true = routeChat none "auto" "hi" true :=
  chat_unknown_prefer_fallthrough "turbo" "hi" true (by decide) (by decide)
